import Mathlib

/-
Verification of the tax-estimation core of src/app.py (a small Flask app).

Embedding conventions:
- Python floats carrying money and rates are modelled as exact rationals (ℚ).
  The float "inf" upper-bound sentinel is modelled by the dedicated
  constructor UBound.inf.
- Python strings are modelled as lists of characters (PyStr := List Char);
  str.lower / str.upper / str.strip / slicing are modelled by the
  corresponding character-list operations (all strings the app compares
  against are ASCII).
- Python dicts keyed by strings are modelled as functions PyStr → Option _,
  written as if-chains over the literal keys, mirroring membership tests and
  .get(key, default) lookups.
- JSON payload fields are modelled as Option values (None/absent) plus, for
  numeric fields, a NumField that distinguishes "absent", "present but not
  convertible by float()" and "numeric value", mirroring the try/except
  float(...) coercion in the routes.
- The persisted JSON document is the AppData structure; each route becomes a
  function from its inputs and the loaded document to the new document and
  the HTTP-level response payload.
-/

namespace FlaskApp

/-- Python strings, modelled as lists of characters. -/
abbrev PyStr := List Char

/-- Models Python str.lower() (the app only compares ASCII keys). -/
def pyLower (s : PyStr) : PyStr := s.map Char.toLower

/-- Models Python str.upper() (the app only compares ASCII keys). -/
def pyUpper (s : PyStr) : PyStr := s.map Char.toUpper

/-- Models Python str.strip(): drop leading and trailing whitespace. -/
def pyStrip (s : PyStr) : PyStr :=
  ((s.dropWhile Char.isWhitespace).reverse.dropWhile Char.isWhitespace).reverse

/-- Models the Python expression `opt or default` on string-valued payload
fields: both a missing field (None) and an empty string are falsy and select
the default. -/
def pyOr (v : Option PyStr) (default : PyStr) : PyStr :=
  match v with
  | none => default
  | some s => if s = [] then default else s

/-- Upper bound of a tax bracket: a finite amount or the float("inf")
sentinel used by the source for the top bracket. -/
inductive UBound
  | inf
  | fin (q : ℚ)
deriving DecidableEq

/-- A bracket (upper_limit, rate), as in the source's (upper, rate) pairs. -/
abbrev Bracket := UBound × ℚ

/-- FED_STANDARD_DEDUCTION_2025 dict from src/app.py lines 33-37. -/
def FED_STANDARD_DEDUCTION_2025 (fs : PyStr) : Option ℚ :=
  if fs = ("single").data then some 15000
  else if fs = ("mfj").data then some 30000
  else if fs = ("hoh").data then some 22500
  else none

/-- FED_BRACKETS_2025["single"] from src/app.py. -/
def FED_single : List Bracket :=
  [(.fin 11925, 0.10), (.fin 48475, 0.12), (.fin 103350, 0.22), (.fin 197300, 0.24),
   (.fin 250525, 0.32), (.fin 626350, 0.35), (.inf, 0.37)]

/-- FED_BRACKETS_2025["mfj"] from src/app.py. -/
def FED_mfj : List Bracket :=
  [(.fin 23850, 0.10), (.fin 96950, 0.12), (.fin 206700, 0.22), (.fin 394600, 0.24),
   (.fin 501050, 0.32), (.fin 751600, 0.35), (.inf, 0.37)]

/-- FED_BRACKETS_2025["hoh"] from src/app.py. -/
def FED_hoh : List Bracket :=
  [(.fin 17000, 0.10), (.fin 64850, 0.12), (.fin 103350, 0.22), (.fin 197300, 0.24),
   (.fin 250500, 0.32), (.fin 626350, 0.35), (.inf, 0.37)]

/-- FED_BRACKETS_2025 dict from src/app.py lines 41-69, as a keyed lookup. -/
def FED_BRACKETS_2025 (fs : PyStr) : Option (List Bracket) :=
  if fs = ("single").data then some FED_single
  else if fs = ("mfj").data then some FED_mfj
  else if fs = ("hoh").data then some FED_hoh
  else none

/-- STATE_BRACKETS_2025_SINGLE["CA"] from src/app.py. -/
def STATE_CA : List Bracket :=
  [(.fin 10756, 0.01), (.fin 25500, 0.02), (.fin 40245, 0.04), (.fin 55866, 0.06),
   (.fin 70606, 0.08), (.fin 360659, 0.093), (.fin 432787, 0.103), (.fin 720110, 0.113),
   (.inf, 0.123)]

/-- STATE_BRACKETS_2025_SINGLE["NY"] from src/app.py. -/
def STATE_NY : List Bracket :=
  [(.fin 8500, 0.04), (.fin 11700, 0.045), (.fin 13900, 0.0525), (.fin 80650, 0.055),
   (.fin 215400, 0.06), (.fin 1077550, 0.0685), (.fin 5000000, 0.0965),
   (.fin 25000000, 0.103), (.inf, 0.109)]

/-- The single zero-rate infinite bracket [(float("inf"), 0.0)], used for WA,
FL and as the fallback for unsupported state codes. -/
def ZERO_TABLE : List Bracket := [(.inf, 0.0)]

/-- STATE_BRACKETS_2025_SINGLE dict from src/app.py lines 79-105. -/
def STATE_BRACKETS_2025_SINGLE (sc : PyStr) : Option (List Bracket) :=
  if sc = ("CA").data then some STATE_CA
  else if sc = ("NY").data then some STATE_NY
  else if sc = ("WA").data then some ZERO_TABLE
  else if sc = ("FL").data then some ZERO_TABLE
  else none

/-- The band width min(remaining, upper - lower) computed by one iteration of
calc_marginal_tax. lower is .fin at the start and is a previous bracket's
upper bound afterwards. In Python, upper - lower is inf - x = inf when upper
is inf (and inf - inf = nan, for which min(remaining, nan) = remaining as
well), so the band is remaining. A finite upper after an inf lower yields
-inf in Python, of which only non-positivity is observable (the band is then
never taxed and never subtracted); it is rendered here by -1. -/
def pyBand (remaining : ℚ) (upper lower : UBound) : ℚ :=
  match upper, lower with
  | .fin u, .fin l => min remaining (u - l)
  | .inf, _ => remaining
  | .fin _, .inf => -1

/-- The for-loop of calc_marginal_tax (src/app.py lines 151-158), with state
(tax, remaining, lower). The early `break` when remaining <= 0 is rendered by
returning tax, which ends the recursion exactly as the break ends the loop. -/
def calcLoop : ℚ → ℚ → UBound → List Bracket → ℚ
  | tax, _, _, [] => tax
  | tax, remaining, lower, (upper, rate) :: bs =>
    if remaining ≤ 0 then tax
    else
      let band := pyBand remaining upper lower
      if 0 < band then calcLoop (tax + band * rate) (remaining - band) upper bs
      else calcLoop tax remaining upper bs

/-- calc_marginal_tax from src/app.py lines 147-159. -/
def calc_marginal_tax (taxable_income : ℚ) (brackets : List Bracket) : ℚ :=
  calcLoop 0 (max 0 taxable_income) (.fin 0) brackets

/-- annualize from src/app.py lines 190-198. -/
def annualize (amount : ℚ) (frequency : PyStr) : ℚ :=
  let freq := pyLower frequency
  if freq = ("weekly").data then amount * 52
  else if freq = ("bi-weekly").data ∨ freq = ("biweekly").data then amount * 26
  else if freq = ("monthly").data then amount * 12
  else amount

/-- Result dict of estimate_federal_tax_2025. -/
structure FedResult where
  standard_deduction : ℚ
  taxable_income : ℚ
  federal_tax : ℚ
deriving DecidableEq

/-- estimate_federal_tax_2025 from src/app.py lines 162-174. After the
fallback to "single" the key is always present, so the direct dict indexing
of the source is rendered by lookups with a default that is never taken. -/
def estimate_federal_tax_2025 (gross_annual : ℚ) (filing_status : PyStr) : FedResult :=
  let fs0 := pyLower filing_status
  let fs := if (FED_BRACKETS_2025 fs0).isSome then fs0 else ("single").data
  let standard_deduction := (FED_STANDARD_DEDUCTION_2025 fs).getD 0
  let taxable := max 0 (gross_annual - standard_deduction)
  { standard_deduction := standard_deduction
    taxable_income := taxable
    federal_tax := calc_marginal_tax taxable ((FED_BRACKETS_2025 fs).getD []) }

/-- Result dict of estimate_state_tax_2025_single. -/
structure StateResult where
  state_taxable_income : ℚ
  state_tax : ℚ
deriving DecidableEq

/-- estimate_state_tax_2025_single from src/app.py lines 177-187. -/
def estimate_state_tax_2025_single (gross_annual : ℚ) (state_code : PyStr) : StateResult :=
  let sc := pyUpper state_code
  let brackets := (STATE_BRACKETS_2025_SINGLE sc).getD ZERO_TABLE
  let taxable := max 0 gross_annual
  { state_taxable_income := taxable
    state_tax := calc_marginal_tax taxable brackets }

/-- A numeric JSON payload field as seen by the routes' float(...) coercion:
absent, present but raising TypeError/ValueError under float(), or numeric. -/
inductive NumField
  | missing
  | bad
  | val (q : ℚ)

/-- The coercion float(payload.get("gross_annual", 0)) with the except branch
returning 0.0 (src/app.py lines 222-225): absent fields default to 0 and
non-convertible values are coerced to 0. -/
def parseNum (f : NumField) : ℚ :=
  match f with
  | .missing => 0
  | .bad => 0
  | .val q => q

/-- The JSON body produced by the /api/estimate route. -/
structure EstimateResult where
  gross_annual : ℚ
  filing_status : PyStr
  state : PyStr
  federal : FedResult
  state_detail : StateResult
  total_tax : ℚ
  net_annual : ℚ
deriving DecidableEq

/-- api_estimate from src/app.py lines 219-246 (the pure computation behind
the route, taking the decoded payload fields). -/
def api_estimate (gross_f : NumField) (fs_f st_f : Option PyStr) : EstimateResult :=
  let gross_annual := parseNum gross_f
  let filing_status := pyLower (pyOr fs_f ("single").data)
  let state := pyUpper (pyOr st_f ("WA").data)
  let fed := estimate_federal_tax_2025 gross_annual filing_status
  let st := estimate_state_tax_2025_single gross_annual state
  let total_tax := fed.federal_tax + st.state_tax
  { gross_annual := gross_annual
    filing_status := filing_status
    state := state
    federal := fed
    state_detail := st
    total_tax := total_tax
    net_annual := max 0 (gross_annual - total_tax) }

/-- A persisted net-income entry (the dict built in api_save_net_income). -/
structure NetIncomeEntry where
  entry_id : Nat
  ts : PyStr
  label : PyStr
  net_amount : ℚ
  frequency : PyStr
  net_annual_equivalent : ℚ
  ts_edited : Option PyStr
deriving DecidableEq

/-- A persisted activity-log entry (the dict built in _log_activity). -/
structure ActivityEntry where
  ts : PyStr
  message : PyStr
deriving DecidableEq

/-- The persisted JSON document {"net_income_entries": [...], "activity": [...]}. -/
structure AppData where
  net_income_entries : List NetIncomeEntry
  activity : List ActivityEntry
deriving DecidableEq

/-- Python's l[-n:] slice: the most recent (last) n elements. -/
def lastSlice (n : Nat) (l : List α) : List α := l.drop (l.length - n)

/-- Models the Python rendering format(net_amount, ",.2f") used inside
activity messages; the exact text is never observed by any property, only
that a message is appended. -/
def formatMoney (q : ℚ) : PyStr := (toString q).data

/-- Models _log_activity from src/app.py lines 137-141: append a message and
keep the most recent 50 entries. -/
def log_activity (data : AppData) (now message : PyStr) : AppData :=
  { data with activity := lastSlice 50 (data.activity ++ [{ ts := now, message := message }]) }

/-- The recognized frequency set checked by the two net-income routes. -/
def FREQ_SET : List PyStr :=
  [("weekly").data, ("bi-weekly").data, ("biweekly").data, ("monthly").data, ("yearly").data]

/-- api_save_net_income from src/app.py lines 249-281 (the state transition
behind the POST /api/net_income route). entry_id and now stand for the two
wall-clock reads int(timestamp*1000) and _now_iso(). Returns the persisted
document after the _save_data call, and the entry echoed in the response. -/
def api_save_net_income (label_f : Option PyStr) (amount_f : NumField) (freq_f : Option PyStr)
    (entry_id : Nat) (now : PyStr) (data : AppData) : AppData × NetIncomeEntry :=
  let label := (pyStrip (pyOr label_f ("Net income").data)).take 60
  let net_amount := parseNum amount_f
  let freq0 := pyLower (pyOr freq_f ("monthly").data)
  let frequency := if freq0 ∈ FREQ_SET then freq0 else ("monthly").data
  let net_annual := annualize net_amount frequency
  let entry : NetIncomeEntry :=
    { entry_id := entry_id
      ts := now
      label := label
      net_amount := net_amount
      frequency := frequency
      net_annual_equivalent := net_annual
      ts_edited := none }
  let data1 := { data with net_income_entries := lastSlice 100 (data.net_income_entries ++ [entry]) }
  let data2 := log_activity data1 now
    (("Saved net income: ").data ++ formatMoney net_amount ++ (" (").data ++ frequency ++ (")").data)
  (data2, entry)

/-- The JSON response of the PUT /api/net_income/latest route: either
{"ok": true, "entry": ...} or the 400 {"ok": false, "error": ...}. -/
inductive UpdateResponse
  | ok (entry : NetIncomeEntry)
  | err (msg : PyStr)
deriving DecidableEq

/-- api_update_latest_net_income from src/app.py lines 284-314 (the state
transition behind the PUT /api/net_income/latest route). The early error
return happens before any mutation or _save_data call, so the document
component of the result is the unchanged input there. The in-place mutation
of the last list element is rendered as dropLast ++ [updated]. -/
def api_update_latest_net_income (label_f : Option PyStr) (amount_f : NumField)
    (freq_f : Option PyStr) (now : PyStr) (data : AppData) : AppData × UpdateResponse :=
  match data.net_income_entries.getLast? with
  | none => (data, .err ("No net income entry to edit.").data)
  | some latest =>
    let label := (pyStrip (pyOr label_f (pyOr (some latest.label) ("Net income").data))).take 60
    let net_amount :=
      match amount_f with
      | .val q => q
      | _ => latest.net_amount
    let freq0 := pyLower (pyOr freq_f (pyOr (some latest.frequency) ("monthly").data))
    let frequency := if freq0 ∈ FREQ_SET then freq0 else ("monthly").data
    let updated : NetIncomeEntry :=
      { latest with
        label := label
        net_amount := net_amount
        frequency := frequency
        net_annual_equivalent := annualize net_amount frequency
        ts_edited := some now }
    let data1 := { data with net_income_entries := data.net_income_entries.dropLast ++ [updated] }
    let data2 := log_activity data1 now
      (("Edited latest net income: ").data ++ formatMoney net_amount
        ++ (" (").data ++ frequency ++ (")").data)
    (data2, .ok updated)

/-- A sample persisted document holding a single net-income entry, used to
instantiate the frame properties of the edit-latest operation on a concrete
input. -/
def sampleData : AppData :=
  { net_income_entries :=
      [{ entry_id := 1
         ts := ("t0").data
         label := ("Net income").data
         net_amount := 5000
         frequency := ("monthly").data
         net_annual_equivalent := 60000
         ts_edited := none }]
    activity := [] }

/-
Specification-side definitions (from the spec's words, for the refinement
claim about the marginal calculator).
-/

/-- Standard marginal-bracket taxation, following the spec's words: with a
running lower edge, the portion of the (clamped) income x that falls inside
the band (lower, upper] is taxed at that band's rate. -/
def specTaxFrom (x : ℚ) (lower : ℚ) : List Bracket → ℚ
  | [] => 0
  | (.inf, rate) :: bs => max 0 (x - lower) * rate + specTaxFrom x lower bs
  | (.fin u, rate) :: bs => max 0 (min x u - lower) * rate + specTaxFrom x u bs

/-- Standard marginal-bracket taxation of a taxable income clamped to be
non-negative, starting from lower edge 0. -/
def specMarginalTax (x : ℚ) (bs : List Bracket) : ℚ := specTaxFrom (max 0 x) 0 bs

/-- The Bracket Table invariant of the spec's data model, relative to a lower
edge: upper bounds strictly increase from the lower edge, every rate is a
fraction in [0, 1), and the table ends with (exactly one) infinite catch-all
bracket. -/
def validFrom (lower : ℚ) : List Bracket → Prop
  | [] => False
  | [(.inf, rate)] => 0 ≤ rate ∧ rate < 1
  | (.fin u, rate) :: bs => lower < u ∧ 0 ≤ rate ∧ rate < 1 ∧ validFrom u bs
  | (.inf, _) :: _ :: _ => False

/-- The Bracket Table invariant: valid from the initial lower edge 0. -/
def validTable (bs : List Bracket) : Prop := validFrom 0 bs

/-- The maximum rate appearing in a table (0 for the empty table; rates are
non-negative in every valid table, so the base case is never the maximum of
a valid table). -/
def maxRate (bs : List Bracket) : ℚ := bs.foldr (fun b acc => max b.2 acc) 0

/-
Helper lemmas about the marginal calculator.
-/

/-- Once nothing remains to be taxed the loop adds nothing: the source
breaks out, and every later iteration would be skipped anyway. -/
theorem calcLoop_stop (tax r : ℚ) (lower : UBound) (bs : List Bracket) (h : r ≤ 0) :
    calcLoop tax r lower bs = tax := by
  cases bs with
  | nil => rfl
  | cons b bs => obtain ⟨u, rate⟩ := b; simp [calcLoop, h]

/-- Income at or below the current lower edge contributes nothing to the
spec-side banded sum of a valid remainder of the table. -/
theorem specTaxFrom_eq_zero (bs : List Bracket) : ∀ L x : ℚ, validFrom L bs → x ≤ L →
    specTaxFrom x L bs = 0 := by
  induction bs with
  | nil => intro L x _ _; rfl
  | cons b bs ih =>
    intro L x hv hx
    obtain ⟨u, rate⟩ := b
    cases u with
    | inf =>
      cases bs with
      | cons b2 bs2 => exact absurd hv (by simp [validFrom])
      | nil =>
        simp only [specTaxFrom]
        rw [max_eq_left (by linarith : x - L ≤ 0)]
        ring
    | fin u =>
      simp only [validFrom] at hv
      obtain ⟨hLu, _, _, hv'⟩ := hv
      simp only [specTaxFrom]
      have hm : min x u ≤ x := min_le_left _ _
      rw [max_eq_left (by linarith : min x u - L ≤ 0),
        ih u x hv' (by linarith : x ≤ u)]
      ring

/-- Central refinement lemma: on any valid remainder of a table whose lower
edge is L, the source loop started with remaining = x - L computes exactly
the spec-side banded sum from lower edge L. -/
theorem calcLoop_eq_specTaxFrom (bs : List Bracket) : ∀ L tax x : ℚ, validFrom L bs →
    calcLoop tax (x - L) (.fin L) bs = tax + specTaxFrom x L bs := by
  induction bs with
  | nil => intro L tax x hv; exact absurd hv (by simp [validFrom])
  | cons b bs ih =>
    intro L tax x hv
    obtain ⟨u, rate⟩ := b
    cases u with
    | inf =>
      cases bs with
      | cons b2 bs2 => exact absurd hv (by simp [validFrom])
      | nil =>
        by_cases hr : x - L ≤ 0
        · rw [calcLoop_stop _ _ _ _ hr]
          simp only [specTaxFrom]
          rw [max_eq_left hr]
          ring
        · push_neg at hr
          simp only [calcLoop, pyBand]
          rw [if_neg (not_le.mpr hr), if_pos hr]
          simp only [calcLoop, specTaxFrom]
          rw [max_eq_right (le_of_lt hr)]
          ring
    | fin u =>
      simp only [validFrom] at hv
      obtain ⟨hLu, hr0, hr1, hv'⟩ := hv
      by_cases hxr : x - L ≤ 0
      · rw [calcLoop_stop _ _ _ _ hxr]
        simp only [specTaxFrom]
        have hm : min x u ≤ x := min_le_left _ _
        rw [max_eq_left (by linarith : min x u - L ≤ 0),
          specTaxFrom_eq_zero bs u x hv' (by linarith : x ≤ u)]
        ring
      · push_neg at hxr
        simp only [calcLoop, pyBand]
        rw [if_neg (not_le.mpr hxr)]
        have hband : (0:ℚ) < min (x - L) (u - L) := lt_min hxr (by linarith)
        rw [if_pos hband]
        rcases le_total x u with hxu | hux
        · rw [min_eq_left (by linarith : x - L ≤ u - L)]
          have hz : x - L - (x - L) = 0 := by ring
          rw [hz, calcLoop_stop _ _ _ _ le_rfl]
          simp only [specTaxFrom]
          rw [min_eq_left hxu, specTaxFrom_eq_zero bs u x hv' hxu,
            max_eq_right (le_of_lt hxr)]
          ring
        · rw [min_eq_right (by linarith : u - L ≤ x - L)]
          have hz : x - L - (u - L) = x - u := by ring
          rw [hz, ih u (tax + (u - L) * rate) x hv']
          simp only [specTaxFrom]
          rw [min_eq_right hux, max_eq_right (by linarith : (0:ℚ) ≤ u - L)]
          ring

/-- The source calculator equals standard marginal-bracket taxation on every
table satisfying the Bracket Table invariant. -/
theorem calc_eq_specMarginal (x : ℚ) (bs : List Bracket) (hv : validTable bs) :
    calc_marginal_tax x bs = specMarginalTax x bs := by
  have h := calcLoop_eq_specTaxFrom bs 0 0 (max 0 x) hv
  rw [sub_zero] at h
  simpa [calc_marginal_tax, specMarginalTax] using h

/-- The spec-side banded sum is monotone in the income. -/
theorem specTaxFrom_mono (bs : List Bracket) : ∀ L x1 x2 : ℚ, validFrom L bs → x1 ≤ x2 →
    specTaxFrom x1 L bs ≤ specTaxFrom x2 L bs := by
  induction bs with
  | nil => intro L x1 x2 _ _; exact le_refl _
  | cons b bs ih =>
    intro L x1 x2 hv hx
    obtain ⟨u, rate⟩ := b
    cases u with
    | inf =>
      cases bs with
      | cons b2 bs2 => exact absurd hv (by simp [validFrom])
      | nil =>
        simp only [validFrom] at hv
        simp only [specTaxFrom]
        have h1 : max 0 (x1 - L) ≤ max 0 (x2 - L) := max_le_max le_rfl (by linarith)
        have h2 := mul_le_mul_of_nonneg_right h1 hv.1
        linarith
    | fin u =>
      simp only [validFrom] at hv
      obtain ⟨hLu, hr0, hr1, hv'⟩ := hv
      simp only [specTaxFrom]
      have hmin : min x1 u ≤ min x2 u := min_le_min hx le_rfl
      have h1 : max 0 (min x1 u - L) ≤ max 0 (min x2 u - L) :=
        max_le_max le_rfl (by linarith)
      have h2 := mul_le_mul_of_nonneg_right h1 hr0
      have h3 := ih u x1 x2 hv' hx
      linarith

/-- The maximum rate of a table is non-negative. -/
theorem maxRate_nonneg (bs : List Bracket) : 0 ≤ maxRate bs := by
  induction bs with
  | nil => simp [maxRate]
  | cons b bs ih =>
    simp only [maxRate, List.foldr] at ih ⊢
    exact le_trans ih (le_max_right _ _)

/-- Splitting the income above a lower edge L at an intermediate bound u
never exceeds the whole portion above L. -/
theorem band_split (x L u : ℚ) (h : L ≤ u) :
    max 0 (min x u - L) + max 0 (x - u) ≤ max 0 (x - L) := by
  rcases le_total x u with hxu | hux
  · rw [min_eq_left hxu, max_eq_left (by linarith : x - u ≤ 0)]
    simp
  · rw [min_eq_right hux, max_eq_right (by linarith : (0:ℚ) ≤ x - u),
      max_eq_right (by linarith : (0:ℚ) ≤ u - L)]
    have hz : u - L + (x - u) = x - L := by ring
    rw [hz]
    exact le_max_right _ _

/-- The spec-side banded sum from lower edge L is bounded by the portion of
income above L taxed wholly at the table's maximum rate. -/
theorem specTaxFrom_le (bs : List Bracket) : ∀ L x : ℚ, validFrom L bs →
    specTaxFrom x L bs ≤ max 0 (x - L) * maxRate bs := by
  induction bs with
  | nil => intro L x hv; exact absurd hv (by simp [validFrom])
  | cons b bs ih =>
    intro L x hv
    obtain ⟨u, rate⟩ := b
    cases u with
    | inf =>
      cases bs with
      | cons b2 bs2 => exact absurd hv (by simp [validFrom])
      | nil =>
        simp only [specTaxFrom, maxRate, List.foldr]
        have h1 : rate ≤ max rate 0 := le_max_left _ _
        have h2 := mul_le_mul_of_nonneg_left h1 (le_max_left 0 (x - L))
        linarith
    | fin u =>
      simp only [validFrom] at hv
      obtain ⟨hLu, hr0, hr1, hv'⟩ := hv
      simp only [specTaxFrom]
      have hMdef : maxRate ((UBound.fin u, rate) :: bs) = max rate (maxRate bs) := by
        simp [maxRate, List.foldr]
      rw [hMdef]
      have hM0 : (0:ℚ) ≤ max rate (maxRate bs) := le_trans hr0 (le_max_left _ _)
      have ha := mul_le_mul_of_nonneg_left (le_max_left rate (maxRate bs))
        (le_max_left 0 (min x u - L))
      have hb := ih u x hv'
      have hc := mul_le_mul_of_nonneg_left (le_max_right rate (maxRate bs))
        (le_max_left 0 (x - u))
      have hd := mul_le_mul_of_nonneg_right (band_split x L u (le_of_lt hLu)) hM0
      rw [add_mul] at hd
      nlinarith [hd]

/-- The loop never decreases the accumulated tax when all rates are
non-negative. -/
theorem le_calcLoop (bs : List Bracket) : ∀ (tax r : ℚ) (lower : UBound),
    (∀ b ∈ bs, (0:ℚ) ≤ b.2) → tax ≤ calcLoop tax r lower bs := by
  induction bs with
  | nil => intro tax r lower _; exact le_refl _
  | cons b bs ih =>
    intro tax r lower hr
    obtain ⟨u, rate⟩ := b
    by_cases h0 : r ≤ 0
    · simp [calcLoop, h0]
    · simp only [calcLoop, if_neg h0]
      by_cases hb : 0 < pyBand r u lower
      · rw [if_pos hb]
        have h1 : tax ≤ tax + pyBand r u lower * rate := by
          have := mul_nonneg (le_of_lt hb) (hr (u, rate) (by simp))
          linarith
        exact le_trans h1 (ih _ _ _ (fun c hc => hr c (by simp [hc])))
      · rw [if_neg hb]
        exact ih _ _ _ (fun c hc => hr c (by simp [hc]))

/-- The calculator never returns a negative tax over a table with
non-negative rates. -/
theorem calc_nonneg (x : ℚ) (bs : List Bracket) (hr : ∀ b ∈ bs, (0:ℚ) ≤ b.2) :
    0 ≤ calc_marginal_tax x bs :=
  le_calcLoop bs 0 (max 0 x) (.fin 0) hr

/-- Zero taxable income is taxed zero on any table. -/
theorem calc_marginal_tax_zero (bs : List Bracket) : calc_marginal_tax 0 bs = 0 := by
  unfold calc_marginal_tax
  rw [max_self]
  exact calcLoop_stop _ _ _ _ le_rfl

/-- The single zero-rate infinite bracket taxes any income zero. -/
theorem calc_zero_table (x : ℚ) : calc_marginal_tax x ZERO_TABLE = 0 := by
  unfold calc_marginal_tax ZERO_TABLE
  rcases le_or_lt (max 0 x) 0 with h | h
  · exact calcLoop_stop _ _ _ _ h
  · simp only [calcLoop, pyBand]
    rw [if_neg (not_le.mpr h), if_pos h]
    norm_num [calcLoop]

/-- Every rate in a valid remainder of a table is non-negative. -/
theorem valid_rates (bs : List Bracket) : ∀ L : ℚ, validFrom L bs → ∀ b ∈ bs, (0:ℚ) ≤ b.2 := by
  induction bs with
  | nil => intro L hv; exact absurd hv (by simp [validFrom])
  | cons b bs ih =>
    intro L hv c hc
    obtain ⟨u, rate⟩ := b
    cases u with
    | inf =>
      cases bs with
      | cons b2 bs2 => exact absurd hv (by simp [validFrom])
      | nil =>
        simp only [validFrom] at hv
        simp only [List.mem_singleton] at hc
        rw [hc]
        exact hv.1
    | fin u =>
      simp only [validFrom] at hv
      obtain ⟨_, hr0, _, hv'⟩ := hv
      rcases List.mem_cons.mp hc with h | h
      · rw [h]; exact hr0
      · exact ih u hv' c h

/-- The "single" federal table satisfies the Bracket Table invariant. -/
theorem validTable_FED_single : validTable FED_single := by
  norm_num [validTable, validFrom, FED_single]

/-- The "mfj" federal table satisfies the Bracket Table invariant. -/
theorem validTable_FED_mfj : validTable FED_mfj := by
  norm_num [validTable, validFrom, FED_mfj]

/-- The "hoh" federal table satisfies the Bracket Table invariant. -/
theorem validTable_FED_hoh : validTable FED_hoh := by
  norm_num [validTable, validFrom, FED_hoh]

/-- The California table satisfies the Bracket Table invariant. -/
theorem validTable_STATE_CA : validTable STATE_CA := by
  norm_num [validTable, validFrom, STATE_CA]

/-- The New York table satisfies the Bracket Table invariant. -/
theorem validTable_STATE_NY : validTable STATE_NY := by
  norm_num [validTable, validFrom, STATE_NY]

/-- The zero-rate table satisfies the Bracket Table invariant. -/
theorem validTable_ZERO : validTable ZERO_TABLE := by
  norm_num [validTable, validFrom, ZERO_TABLE]

/-- Any federal bracket lookup (with the source's never-taken default)
yields only non-negative rates. -/
theorem fed_lookup_rates (s : PyStr) : ∀ b ∈ (FED_BRACKETS_2025 s).getD [], (0:ℚ) ≤ b.2 := by
  intro b hb
  unfold FED_BRACKETS_2025 at hb
  by_cases h1 : s = ("single").data
  · rw [if_pos h1, Option.getD_some] at hb
    exact valid_rates _ 0 validTable_FED_single b hb
  · rw [if_neg h1] at hb
    by_cases h2 : s = ("mfj").data
    · rw [if_pos h2, Option.getD_some] at hb
      exact valid_rates _ 0 validTable_FED_mfj b hb
    · rw [if_neg h2] at hb
      by_cases h3 : s = ("hoh").data
      · rw [if_pos h3, Option.getD_some] at hb
        exact valid_rates _ 0 validTable_FED_hoh b hb
      · rw [if_neg h3] at hb
        simp at hb

/-- Any state bracket lookup (with the zero-rate fallback) yields only
non-negative rates. -/
theorem state_lookup_rates (s : PyStr) :
    ∀ b ∈ (STATE_BRACKETS_2025_SINGLE s).getD ZERO_TABLE, (0:ℚ) ≤ b.2 := by
  intro b hb
  unfold STATE_BRACKETS_2025_SINGLE at hb
  by_cases h1 : s = ("CA").data
  · rw [if_pos h1, Option.getD_some] at hb
    exact valid_rates _ 0 validTable_STATE_CA b hb
  · rw [if_neg h1] at hb
    by_cases h2 : s = ("NY").data
    · rw [if_pos h2, Option.getD_some] at hb
      exact valid_rates _ 0 validTable_STATE_NY b hb
    · rw [if_neg h2] at hb
      by_cases h3 : s = ("WA").data
      · rw [if_pos h3, Option.getD_some] at hb
        exact valid_rates _ 0 validTable_ZERO b hb
      · rw [if_neg h3] at hb
        by_cases h4 : s = ("FL").data
        · rw [if_pos h4, Option.getD_some] at hb
          exact valid_rates _ 0 validTable_ZERO b hb
        · rw [if_neg h4, Option.getD_none] at hb
          exact valid_rates _ 0 validTable_ZERO b hb

/-- Every federal standard deduction lookup (with the source's never-taken
default) is non-negative. -/
theorem fed_ded_nonneg (s : PyStr) : 0 ≤ (FED_STANDARD_DEDUCTION_2025 s).getD 0 := by
  unfold FED_STANDARD_DEDUCTION_2025
  split_ifs <;> norm_num

/-- Annualizing a monthly amount multiplies it by 12. -/
theorem annualize_monthly (a : ℚ) : annualize a (("monthly").data) = a * 12 := by
  have h : pyLower (("monthly").data) = ("monthly").data := by decide
  have h1 : ¬((("monthly").data : PyStr) = ("weekly").data) := by decide
  have h2 : ¬((("monthly").data : PyStr) = ("bi-weekly").data
      ∨ (("monthly").data : PyStr) = ("biweekly").data) := by decide
  simp [annualize, h, h1, h2]

/-- Annualizing a weekly amount multiplies it by 52. -/
theorem annualize_weekly (a : ℚ) : annualize a (("weekly").data) = a * 52 := by
  have h : pyLower (("weekly").data) = ("weekly").data := by decide
  simp [annualize, h]

/-- The save route's frequency normalization maps any frequency whose
lowercase form is outside the recognized set (the empty string included, via
the payload default) to "monthly". -/
theorem save_freq_resolve (freq : PyStr) (h : pyLower freq ∉ FREQ_SET) :
    (if pyLower (pyOr (some freq) (("monthly").data)) ∈ FREQ_SET
      then pyLower (pyOr (some freq) (("monthly").data)) else ("monthly").data)
      = ("monthly").data := by
  by_cases hnil : freq = []
  · subst hnil; decide
  · have hres : pyOr (some freq) (("monthly").data) = freq := by simp [pyOr, hnil]
    rw [hres, if_neg h]

/-
Claim theorems.
-/

/-- C1: for every taxable income and every bracket table satisfying the
Bracket Table invariant, calc_marginal_tax clamps the income at 0, walks the
brackets accumulating band times rate, and returns exactly standard
marginal-bracket taxation (each band of income taxed at that band's rate). -/
theorem claim_C1 (taxable_income : ℚ) (brackets : List Bracket)
    (hv : validTable brackets) :
    calc_marginal_tax taxable_income brackets = specMarginalTax taxable_income brackets :=
  calc_eq_specMarginal taxable_income brackets hv

theorem claim_C1_witness :
    validTable FED_single ∧
      calc_marginal_tax 45000 FED_single = specMarginalTax 45000 FED_single :=
  ⟨validTable_FED_single, claim_C1 45000 FED_single validTable_FED_single⟩

/-- C2: for a fixed table satisfying the Bracket Table invariant the
computed tax is monotonically non-decreasing in the taxable income. -/
theorem claim_C2 (brackets : List Bracket) (x1 x2 : ℚ) (hv : validTable brackets)
    (h1 : 0 ≤ x1) (h2 : 0 ≤ x2) (hle : x1 ≤ x2) :
    calc_marginal_tax x1 brackets ≤ calc_marginal_tax x2 brackets := by
  rw [calc_eq_specMarginal x1 brackets hv, calc_eq_specMarginal x2 brackets hv]
  unfold specMarginalTax
  exact specTaxFrom_mono brackets 0 (max 0 x1) (max 0 x2) hv (max_le_max le_rfl hle)

theorem claim_C2_witness :
    validTable FED_single ∧ (0:ℚ) ≤ 10000 ∧ (0:ℚ) ≤ 20000 ∧ (10000:ℚ) ≤ 20000 ∧
      calc_marginal_tax 10000 FED_single ≤ calc_marginal_tax 20000 FED_single :=
  ⟨validTable_FED_single, by norm_num, by norm_num, by norm_num,
    claim_C2 FED_single 10000 20000 validTable_FED_single (by norm_num) (by norm_num)
      (by norm_num)⟩

/-- C3 as stated is false: for a negative taxable income the computed tax is
0 (the income is clamped), while taxable_income times the maximum rate is
negative, so the claimed bound fails on the valid federal "single" table at
taxable_income = -100. -/
theorem claim_C3_counterexample :
    validTable FED_single ∧
      ¬ (calc_marginal_tax (-100) FED_single ≤ (-100) * maxRate FED_single) :=
  ⟨validTable_FED_single, by
    norm_num [calc_marginal_tax, calcLoop, pyBand, FED_single, maxRate]⟩

/-- C3 amended: for every non-negative taxable income and every table
satisfying the Bracket Table invariant, the computed tax is at most the
taxable income times the maximum rate appearing in the table. -/
theorem claim_C3_amended (taxable_income : ℚ) (brackets : List Bracket)
    (hx : 0 ≤ taxable_income) (hv : validTable brackets) :
    calc_marginal_tax taxable_income brackets ≤ taxable_income * maxRate brackets := by
  rw [calc_eq_specMarginal _ _ hv]
  unfold specMarginalTax
  rw [max_eq_right hx]
  calc specTaxFrom taxable_income 0 brackets
      ≤ max 0 (taxable_income - 0) * maxRate brackets := specTaxFrom_le brackets 0 taxable_income hv
    _ = taxable_income * maxRate brackets := by rw [sub_zero, max_eq_right hx]

theorem claim_C3_amended_witness :
    (0:ℚ) ≤ 45000 ∧ validTable FED_single ∧
      calc_marginal_tax 45000 FED_single ≤ 45000 * maxRate FED_single :=
  ⟨by norm_num, validTable_FED_single,
    claim_C3_amended 45000 FED_single (by norm_num) validTable_FED_single⟩

/-- C4: the federal estimator matches the filing status case-insensitively
against single/mfj/hoh (its result depends only on the lowercased status,
and each recognized status selects its deduction and table), falls back to
"single" otherwise, returns taxable_income = max(0, gross - deduction) and
federal_tax = the marginal calculator on that table; on gross 60000 with
status "single" it returns deduction 15000, taxable income 45000 and federal
tax 5161.50. -/
theorem claim_C4 (gross_annual : ℚ) (filing_status : PyStr) :
    (∀ fs2 : PyStr, pyLower filing_status = pyLower fs2 →
      estimate_federal_tax_2025 gross_annual filing_status
        = estimate_federal_tax_2025 gross_annual fs2) ∧
    (pyLower filing_status = ("single").data →
      estimate_federal_tax_2025 gross_annual filing_status =
        { standard_deduction := 15000
          taxable_income := max 0 (gross_annual - 15000)
          federal_tax := calc_marginal_tax (max 0 (gross_annual - 15000)) FED_single }) ∧
    (pyLower filing_status = ("mfj").data →
      estimate_federal_tax_2025 gross_annual filing_status =
        { standard_deduction := 30000
          taxable_income := max 0 (gross_annual - 30000)
          federal_tax := calc_marginal_tax (max 0 (gross_annual - 30000)) FED_mfj }) ∧
    (pyLower filing_status = ("hoh").data →
      estimate_federal_tax_2025 gross_annual filing_status =
        { standard_deduction := 22500
          taxable_income := max 0 (gross_annual - 22500)
          federal_tax := calc_marginal_tax (max 0 (gross_annual - 22500)) FED_hoh }) ∧
    (pyLower filing_status ≠ ("single").data → pyLower filing_status ≠ ("mfj").data →
      pyLower filing_status ≠ ("hoh").data →
      estimate_federal_tax_2025 gross_annual filing_status =
        { standard_deduction := 15000
          taxable_income := max 0 (gross_annual - 15000)
          federal_tax := calc_marginal_tax (max 0 (gross_annual - 15000)) FED_single }) ∧
    estimate_federal_tax_2025 60000 (("single").data) =
      { standard_deduction := 15000, taxable_income := 45000, federal_tax := 5161.5 } := by
  have hms : ¬((("mfj").data : PyStr) = ("single").data) := by decide
  have hhs : ¬((("hoh").data : PyStr) = ("single").data) := by decide
  have hhm : ¬((("hoh").data : PyStr) = ("mfj").data) := by decide
  have hss : pyLower (("single").data) = ("single").data := by decide
  refine ⟨?_, ?_, ?_, ?_, ?_, ?_⟩
  · intro fs2 h
    simp only [estimate_federal_tax_2025, h]
  · intro h
    simp [estimate_federal_tax_2025, h, FED_BRACKETS_2025, FED_STANDARD_DEDUCTION_2025]
  · intro h
    simp [estimate_federal_tax_2025, h, FED_BRACKETS_2025, FED_STANDARD_DEDUCTION_2025, hms]
  · intro h
    simp [estimate_federal_tax_2025, h, FED_BRACKETS_2025, FED_STANDARD_DEDUCTION_2025,
      hhs, hhm]
  · intro h1 h2 h3
    simp [estimate_federal_tax_2025, FED_BRACKETS_2025, FED_STANDARD_DEDUCTION_2025,
      h1, h2, h3]
  · have h45 : max (0:ℚ) (60000 - 15000) = 45000 := by norm_num
    simp [estimate_federal_tax_2025, hss, FED_BRACKETS_2025, FED_STANDARD_DEDUCTION_2025, h45]
    norm_num [calc_marginal_tax, calcLoop, pyBand, FED_single]

theorem claim_C4_witness :
    pyLower (("MFJ").data) = ("mfj").data ∧
      estimate_federal_tax_2025 100000 (("MFJ").data) =
        { standard_deduction := 30000
          taxable_income := max 0 (100000 - 30000)
          federal_tax := calc_marginal_tax (max 0 (100000 - 30000)) FED_mfj } :=
  ⟨by decide, (claim_C4 100000 (("MFJ").data)).2.2.1 (by decide)⟩

/-- C5: for every state code whose uppercased form is none of CA/NY/WA/FL,
the state estimator falls back to the zero-rate infinite bracket and returns
state tax 0 with state taxable income max(0, gross); and the marginal
calculator on the zero-rate table returns 0 for every non-negative income. -/
theorem claim_C5 (gross_annual : ℚ) (state_code : PyStr) :
    (pyUpper state_code ≠ ("CA").data → pyUpper state_code ≠ ("NY").data →
      pyUpper state_code ≠ ("WA").data → pyUpper state_code ≠ ("FL").data →
      estimate_state_tax_2025_single gross_annual state_code =
        { state_taxable_income := max 0 gross_annual, state_tax := 0 }) ∧
    (∀ x : ℚ, 0 ≤ x → calc_marginal_tax x ZERO_TABLE = 0) := by
  constructor
  · intro h1 h2 h3 h4
    simp [estimate_state_tax_2025_single, STATE_BRACKETS_2025_SINGLE, h1, h2, h3, h4,
      calc_zero_table]
  · intro x _
    exact calc_zero_table x

theorem claim_C5_witness :
    (pyUpper (("tx").data) ≠ ("CA").data ∧ pyUpper (("tx").data) ≠ ("NY").data ∧
      pyUpper (("tx").data) ≠ ("WA").data ∧ pyUpper (("tx").data) ≠ ("FL").data) ∧
    estimate_state_tax_2025_single 50000 (("tx").data) =
      { state_taxable_income := max 0 50000, state_tax := 0 } ∧
    ((0:ℚ) ≤ 7 ∧ calc_marginal_tax 7 ZERO_TABLE = 0) :=
  ⟨⟨by decide, by decide, by decide, by decide⟩,
   (claim_C5 50000 (("tx").data)).1 (by decide) (by decide) (by decide) (by decide),
   ⟨by norm_num, (claim_C5 50000 (("tx").data)).2 7 (by norm_num)⟩⟩

/-- C6 as stated is false: the save route normalizes unrecognized frequency
strings to "monthly" before annualizing, so saving amount 1 with frequency
"daily" stores net_annual_equivalent 12, not 1. -/
theorem claim_C6_counterexample :
    ((api_save_net_income none (.val 1) (some (("daily").data)) 0 []
        { net_income_entries := [], activity := [] }).2).net_annual_equivalent ≠ 1 := by
  simp only [api_save_net_income, save_freq_resolve (("daily").data) (by decide), parseNum]
  show ¬ annualize 1 (("monthly").data) = 1
  rw [annualize_monthly]
  norm_num

/-- C6 amended: for every net_amount and every frequency string whose
lowercase form is outside the recognized set, the save-net-income operation
falls back silently to the monthly (x12) multiplier: the stored entry's
frequency is "monthly" and its net_annual_equivalent equals net_amount * 12.
(annualize itself defaults unknown strings to x1, but the route never passes
it one.) -/
theorem claim_C6_amended (net_amount : ℚ) (freq : PyStr) (label_f : Option PyStr)
    (entry_id : Nat) (now : PyStr) (data : AppData)
    (h : pyLower freq ∉ FREQ_SET) :
    ((api_save_net_income label_f (.val net_amount) (some freq) entry_id now data).2).frequency
        = ("monthly").data ∧
    ((api_save_net_income label_f (.val net_amount) (some freq) entry_id now
        data).2).net_annual_equivalent = net_amount * 12 := by
  constructor
  · simp [api_save_net_income, save_freq_resolve freq h]
  · simp only [api_save_net_income, save_freq_resolve freq h, parseNum]
    show annualize net_amount (("monthly").data) = net_amount * 12
    exact annualize_monthly net_amount

theorem claim_C6_amended_witness :
    (pyLower (("daily").data) ∉ FREQ_SET) ∧
      (((api_save_net_income none (.val 5) (some (("daily").data)) 0 []
          { net_income_entries := [], activity := [] }).2).frequency = ("monthly").data ∧
        ((api_save_net_income none (.val 5) (some (("daily").data)) 0 []
          { net_income_entries := [], activity := [] }).2).net_annual_equivalent = 5 * 12) :=
  ⟨by decide,
    claim_C6_amended 5 (("daily").data) none 0 [] { net_income_entries := [], activity := [] }
      (by decide)⟩

/-- The federal estimator never returns a negative tax. -/
theorem estimate_federal_nonneg (g : ℚ) (fs : PyStr) :
    0 ≤ (estimate_federal_tax_2025 g fs).federal_tax := by
  simp only [estimate_federal_tax_2025]
  exact calc_nonneg _ _ (fed_lookup_rates _)

/-- The state estimator never returns a negative tax. -/
theorem estimate_state_nonneg (g : ℚ) (sc : PyStr) :
    0 ≤ (estimate_state_tax_2025_single g sc).state_tax := by
  simp only [estimate_state_tax_2025_single]
  exact calc_nonneg _ _ (state_lookup_rates _)

/-- On a negative gross income the federal estimator clamps taxable income
to 0 and returns tax 0, for every filing status string. -/
theorem estimate_federal_neg (g : ℚ) (fs : PyStr) (hg : g < 0) :
    (estimate_federal_tax_2025 g fs).taxable_income = 0 ∧
      (estimate_federal_tax_2025 g fs).federal_tax = 0 := by
  simp only [estimate_federal_tax_2025]
  have hded := fed_ded_nonneg
    (if (FED_BRACKETS_2025 (pyLower fs)).isSome then pyLower fs else ("single").data)
  constructor
  · exact max_eq_left (by linarith)
  · rw [max_eq_left (by linarith)]
    exact calc_marginal_tax_zero _

/-- On a non-positive gross income the state estimator clamps taxable income
to 0 and returns tax 0, for every state code string. -/
theorem estimate_state_neg (g : ℚ) (sc : PyStr) (hg : g ≤ 0) :
    (estimate_state_tax_2025_single g sc).state_taxable_income = 0 ∧
      (estimate_state_tax_2025_single g sc).state_tax = 0 := by
  simp only [estimate_state_tax_2025_single]
  constructor
  · exact max_eq_left hg
  · rw [max_eq_left hg]
    exact calc_marginal_tax_zero _

/-- C7: a negative gross_annual yields federal and state taxable income 0,
federal and state tax 0, total tax 0 and net_annual 0; and no input at all
produces a negative tax or a negative net_annual. -/
theorem claim_C7 :
    (∀ (g : ℚ) (fs_f st_f : Option PyStr), g < 0 →
      (api_estimate (.val g) fs_f st_f).federal.taxable_income = 0 ∧
      (api_estimate (.val g) fs_f st_f).state_detail.state_taxable_income = 0 ∧
      (api_estimate (.val g) fs_f st_f).federal.federal_tax = 0 ∧
      (api_estimate (.val g) fs_f st_f).state_detail.state_tax = 0 ∧
      (api_estimate (.val g) fs_f st_f).total_tax = 0 ∧
      (api_estimate (.val g) fs_f st_f).net_annual = 0) ∧
    (∀ (gf : NumField) (fs_f st_f : Option PyStr),
      0 ≤ (api_estimate gf fs_f st_f).federal.federal_tax ∧
      0 ≤ (api_estimate gf fs_f st_f).state_detail.state_tax ∧
      0 ≤ (api_estimate gf fs_f st_f).total_tax ∧
      0 ≤ (api_estimate gf fs_f st_f).net_annual) := by
  constructor
  · intro g fs_f st_f hg
    simp only [api_estimate, parseNum]
    have hf := estimate_federal_neg g (pyLower (pyOr fs_f (("single").data))) hg
    have hs := estimate_state_neg g (pyUpper (pyOr st_f (("WA").data))) (le_of_lt hg)
    refine ⟨hf.1, hs.1, hf.2, hs.2, ?_, ?_⟩
    · rw [hf.2, hs.2]; norm_num
    · rw [hf.2, hs.2]
      have : g - (0 + 0) ≤ 0 := by linarith
      rw [max_eq_left this]
  · intro gf fs_f st_f
    simp only [api_estimate]
    refine ⟨estimate_federal_nonneg _ _, estimate_state_nonneg _ _, ?_, le_max_left _ _⟩
    exact add_nonneg (estimate_federal_nonneg _ _) (estimate_state_nonneg _ _)

theorem claim_C7_witness :
    ((-5 : ℚ) < 0) ∧
      ((api_estimate (.val (-5)) none none).federal.taxable_income = 0 ∧
        (api_estimate (.val (-5)) none none).state_detail.state_taxable_income = 0 ∧
        (api_estimate (.val (-5)) none none).federal.federal_tax = 0 ∧
        (api_estimate (.val (-5)) none none).state_detail.state_tax = 0 ∧
        (api_estimate (.val (-5)) none none).total_tax = 0 ∧
        (api_estimate (.val (-5)) none none).net_annual = 0) :=
  ⟨by norm_num, claim_C7.1 (-5) none none (by norm_num)⟩

/-- C8: with no stored net-income entries, the edit-latest operation returns
the explicit error response (HTTP 400 in the route) and the persisted
document is returned unchanged: no entry is added or mutated, no activity is
logged, nothing is written. -/
theorem claim_C8 (label_f : Option PyStr) (amount_f : NumField) (freq_f : Option PyStr)
    (now : PyStr) (data : AppData) (h : data.net_income_entries = []) :
    api_update_latest_net_income label_f amount_f freq_f now data
      = (data, .err (("No net income entry to edit.").data)) := by
  unfold api_update_latest_net_income
  rw [h]
  rfl

theorem claim_C8_witness :
    ({ net_income_entries := [], activity := [] } : AppData).net_income_entries = [] ∧
      api_update_latest_net_income none .missing none []
          { net_income_entries := [], activity := [] }
        = ({ net_income_entries := [], activity := [] },
            .err (("No net income entry to edit.").data)) :=
  ⟨rfl, claim_C8 none .missing none [] { net_income_entries := [], activity := [] } rfl⟩

/-- C9: on a non-empty entries list the edit-latest operation leaves the
list length and every entry but the last unchanged, replies ok with the
updated last entry, whose net_annual_equivalent is the annualization of its
(new) amount and frequency and whose edit timestamp is set to now; and in
the concrete scenario, saving amount 5000 monthly stores 60000 and editing
the latest entry to weekly recomputes 260000 in place. -/
theorem claim_C9 :
    (∀ (label_f : Option PyStr) (amount_f : NumField) (freq_f : Option PyStr)
        (now : PyStr) (data : AppData), data.net_income_entries ≠ [] →
      ((api_update_latest_net_income label_f amount_f freq_f now
          data).1).net_income_entries.length = data.net_income_entries.length ∧
      ((api_update_latest_net_income label_f amount_f freq_f now
          data).1).net_income_entries.dropLast = data.net_income_entries.dropLast ∧
      ∃ e : NetIncomeEntry,
        (api_update_latest_net_income label_f amount_f freq_f now data).2 = .ok e ∧
        ((api_update_latest_net_income label_f amount_f freq_f now
            data).1).net_income_entries.getLast? = some e ∧
        e.ts_edited = some now ∧
        e.net_annual_equivalent = annualize e.net_amount e.frequency) ∧
    (((api_save_net_income none (.val 5000) (some (("monthly").data)) 1 (("t1").data)
        { net_income_entries := [], activity := [] }).2).net_annual_equivalent = 60000 ∧
      (((api_update_latest_net_income none .missing (some (("weekly").data)) (("t2").data)
          ((api_save_net_income none (.val 5000) (some (("monthly").data)) 1 (("t1").data)
            { net_income_entries := [], activity := [] }).1)).1).net_income_entries.length = 1 ∧
      ∃ e : NetIncomeEntry,
        ((api_update_latest_net_income none .missing (some (("weekly").data)) (("t2").data)
          ((api_save_net_income none (.val 5000) (some (("monthly").data)) 1 (("t1").data)
            { net_income_entries := [], activity := [] }).1)).2) = .ok e ∧
        e.net_amount = 5000 ∧ e.frequency = ("weekly").data ∧
        e.net_annual_equivalent = 260000 ∧ e.ts_edited = some (("t2").data))) := by
  constructor
  · intro label_f amount_f freq_f now data h
    obtain ⟨e0, he0⟩ := Option.isSome_iff_exists.mp (List.getLast?_isSome.mpr h)
    have hlen : 0 < data.net_income_entries.length := List.length_pos.mpr h
    simp only [api_update_latest_net_income, he0, log_activity]
    refine ⟨?_, ?_, ?_⟩
    · simp only [List.length_append, List.length_dropLast, List.length_singleton]
      omega
    · exact List.dropLast_concat
    · exact ⟨_, rfl, List.getLast?_concat _, rfl, rfl⟩
  · have hfm : (if pyLower (pyOr (some (("monthly").data)) (("monthly").data)) ∈ FREQ_SET
        then pyLower (pyOr (some (("monthly").data)) (("monthly").data))
        else ("monthly").data) = ("monthly").data := by decide
    have hfw : (if pyLower (pyOr (some (("weekly").data))
          (pyOr (some (("monthly").data)) (("monthly").data))) ∈ FREQ_SET
        then pyLower (pyOr (some (("weekly").data))
          (pyOr (some (("monthly").data)) (("monthly").data)))
        else ("monthly").data) = ("weekly").data := by decide
    have h60 : annualize 5000 (("monthly").data) = 60000 := by
      rw [annualize_monthly]; norm_num
    have h260 : annualize 5000 (("weekly").data) = 260000 := by
      rw [annualize_weekly]; norm_num
    simp only [api_save_net_income, parseNum, hfm, h60, log_activity, lastSlice,
      List.nil_append, List.length_singleton, api_update_latest_net_income]
    norm_num [List.getLast?, hfw, h260]

theorem claim_C9_witness :
    sampleData.net_income_entries ≠ [] ∧
      (((api_update_latest_net_income none .missing none (("t9").data)
          sampleData).1).net_income_entries.length = sampleData.net_income_entries.length ∧
        ((api_update_latest_net_income none .missing none (("t9").data)
          sampleData).1).net_income_entries.dropLast = sampleData.net_income_entries.dropLast ∧
        ∃ e : NetIncomeEntry,
          (api_update_latest_net_income none .missing none (("t9").data) sampleData).2 = .ok e ∧
          ((api_update_latest_net_income none .missing none (("t9").data)
            sampleData).1).net_income_entries.getLast? = some e ∧
          e.ts_edited = some (("t9").data) ∧
          e.net_annual_equivalent = annualize e.net_amount e.frequency) :=
  ⟨by simp [sampleData],
    claim_C9.1 none .missing none (("t9").data) sampleData (by simp [sampleData])⟩

/-- The state estimator reports zero tax for Washington. -/
theorem state_tax_WA (g : ℚ) :
    (estimate_state_tax_2025_single g (("WA").data)).state_tax = 0 := by
  have h1 : pyUpper (("WA").data) = ("WA").data := by decide
  have hCA : ¬((("WA").data : PyStr) = ("CA").data) := by decide
  have hNY : ¬((("WA").data : PyStr) = ("NY").data) := by decide
  simp [estimate_state_tax_2025_single, STATE_BRACKETS_2025_SINGLE, h1, hCA, hNY,
    calc_zero_table]

/-- C10: the estimate operation is total over arbitrary payloads through
silent defaults: a missing or non-numeric gross_annual is coerced to 0, a
missing or empty filing_status behaves as "single", a missing or empty state
behaves as "WA" (and the response then reports state "WA" with state tax 0). -/
theorem claim_C10 (gf : NumField) (fs_f st_f : Option PyStr) :
    api_estimate .missing fs_f st_f = api_estimate (.val 0) fs_f st_f ∧
    api_estimate .bad fs_f st_f = api_estimate (.val 0) fs_f st_f ∧
    api_estimate gf none st_f = api_estimate gf (some (("single").data)) st_f ∧
    api_estimate gf (some ([] : PyStr)) st_f = api_estimate gf (some (("single").data)) st_f ∧
    api_estimate gf fs_f none = api_estimate gf fs_f (some (("WA").data)) ∧
    api_estimate gf fs_f (some ([] : PyStr)) = api_estimate gf fs_f (some (("WA").data)) ∧
    (api_estimate gf fs_f none).state = ("WA").data ∧
    (api_estimate gf fs_f none).state_detail.state_tax = 0 := by
  have hsingle : ¬((("single").data : PyStr) = []) := by decide
  have hWA : ¬((("WA").data : PyStr) = []) := by decide
  have hupWA : pyUpper (("WA").data) = ("WA").data := by decide
  refine ⟨rfl, rfl, ?_, ?_, ?_, ?_, ?_, ?_⟩
  · simp [api_estimate, pyOr, hsingle]
  · simp [api_estimate, pyOr, hsingle]
  · simp [api_estimate, pyOr, hWA]
  · simp [api_estimate, pyOr, hWA]
  · simp [api_estimate, pyOr, hupWA]
  · simp only [api_estimate, pyOr]
    exact state_tax_WA _

end FlaskApp
